import Mathlib

/-!
Shallow embedding of the PostgreSQL connection lifecycle manager
(`PostgresClient` in `src/modules/api/src/backend/clients/postgres.py`).

The manager's mutable fields become the record `MState`; the collection of
pool resources allocated by `_create_pool` becomes the record `World`
(tracking which pools are currently open, i.e. live).  The two background
coroutines, the connect retry loop and the health monitor loop, are driven
by explicit environment scripts listing the outcome of each I/O attempt
(pool open succeeded or raised, probe succeeded or raised, rebuild
succeeded or raised); awaits and log calls become explicit `Effect`s.
Error message strings and log timestamps are abstracted to natural
numbers.  Each definition mirrors one method of the source class.
-/

set_option linter.unusedVariables false

namespace PostgresModel

/-- Mutable fields of `PostgresClient.__init__` (postgres.py lines 59-69).
`hasConfig` models whether `_config` is present; `pool` holds the id of the
pool object currently referenced by `self._pool`; `connectionTask` and
`monitorTask` model whether `_connection_task` / `_monitor_task` hold a
task object.  Error strings are abstracted to `Nat` codes and
`time.time()` values to `Nat`. -/
structure MState where
  hasConfig : Bool
  initialized : Bool
  connected : Bool
  pool : Option Nat
  engineCreated : Bool
  connectionTask : Bool
  monitorTask : Bool
  lastConnectionError : Option Nat
  lastErrorLogTime : Nat
  deriving Repr, DecidableEq

/-- Resource environment: `nextPoolId` numbers successive `_create_pool`
calls; `openPools` lists the ids of pools that have been opened
(`await pool.open()`) and not yet closed (`await pool.close()`) - i.e. the
live pool handles. -/
structure World where
  nextPoolId : Nat
  openPools : List Nat
  deriving Repr, DecidableEq

/-- Observable actions performed by the manager's coroutines. -/
inductive Effect where
  | sleep (secs : Nat)
  | openPool (id : Nat)
  | closePool (id : Nat)
  | probe (id : Nat)
  | spawnConnectTask
  | spawnMonitorTask
  | cancelMonitorTask
  | cancelConnectTask
  | logWarning (msg : Nat)
  deriving Repr, DecidableEq

/-- State of a freshly constructed client with a configuration
(postgres.py lines 59-69). -/
def initialState : MState :=
  { hasConfig := true
    initialized := false
    connected := false
    pool := none
    engineCreated := false
    connectionTask := false
    monitorTask := false
    lastConnectionError := none
    lastErrorLogTime := 0 }

/-- A client after its initialization method has completed but before any
connection attempt: engine created, `_initialized` true, everything else
as constructed. -/
def readyState : MState :=
  { initialState with initialized := true, engineCreated := true }

/-- A connected client currently referencing pool `p`, with the monitor
task spawned (the state reached after a first successful connect whose
pool got id `p`). -/
def connectedState (p : Nat) : MState :=
  { readyState with connected := true, pool := some p, monitorTask := true }

/-- Error raised by the source method that initializes the client when
`_config` is absent (ValueError at postgres.py line 74). -/
inductive InitError where
  | confRequired
  deriving Repr, DecidableEq

/-- Models the source method that initializes the client (postgres.py
lines 71-80): raises when no config is present, otherwise creates the
SQLAlchemy engine and sets `_initialized = True`. -/
def initializeClient (s : MState) : Except InitError MState :=
  if s.hasConfig = false then Except.error InitError.confRequired
  else Except.ok { s with engineCreated := true, initialized := true }

/-- Models `init_connection` (postgres.py lines 82-87): if the client is
not initialized it returns silently (plain `return`, no exception, no
task); otherwise it spawns the connect retry loop as a background task. -/
def init_connection (s : MState) : MState × List Effect :=
  if s.initialized = false then (s, [])
  else ({ s with connectionTask := true }, [Effect.spawnConnectTask])

/-- Outcome of one connect-and-probe attempt of the retry loop, as decided
by the environment: `_create_pool`'s `pool.open()` raised (`openFail`),
the pool opened but the `SELECT 1` probe raised (`probeFail`), or both
succeeded (`ok`).  Failure outcomes carry the abstracted exception message
and the `time.time()` value observed in the except branch. -/
inductive AttemptResult where
  | openFail (e : Nat) (t : Nat)
  | probeFail (e : Nat) (t : Nat)
  | ok
  deriving Repr, DecidableEq

/-- Whether an attempt outcome is a failure. -/
def AttemptResult.isFailure : AttemptResult → Bool
  | AttemptResult.openFail _ _ => true
  | AttemptResult.probeFail _ _ => true
  | AttemptResult.ok => false

/-- Except-branch of `_connection_retry_loop` (postgres.py lines 111-120):
record the error in `_last_connection_error`, log a warning at most once
per 10 seconds (updating `_last_error_log_time`), then sleep 1 second. -/
def connectFailure (s : MState) (e : Nat) (t : Nat) : MState × List Effect :=
  if 10 ≤ t - s.lastErrorLogTime then
    ({ s with lastConnectionError := some e, lastErrorLogTime := t },
     [Effect.logWarning e, Effect.sleep 1])
  else
    ({ s with lastConnectionError := some e }, [Effect.sleep 1])

/-- Models `_connection_retry_loop` (postgres.py lines 89-120) run against
a script of attempt outcomes.  The `while not self._connected` loop body:
assign `self._pool = await self._create_pool()` (the previous pool is not
closed), probe, and on success set `_connected = True`, spawn the monitor
task and break; on any exception run `connectFailure`.  The final `Bool`
is `true` when the loop terminated and `false` when the script ran out
with the loop still pending. -/
def _connection_retry_loop : List AttemptResult → MState → World →
    MState × World × List Effect × Bool
  | [], s, w =>
    if s.connected then (s, w, [], true) else (s, w, [], false)
  | a :: rest, s, w =>
    if s.connected then (s, w, [], true)
    else
      match a with
      | AttemptResult.openFail e t =>
        let f := connectFailure s e t
        let r := _connection_retry_loop rest f.1 w
        (r.1, r.2.1, f.2 ++ r.2.2.1, r.2.2.2)
      | AttemptResult.probeFail e t =>
        let pid := w.nextPoolId
        let w1 : World := { nextPoolId := pid + 1, openPools := w.openPools ++ [pid] }
        let f := connectFailure { s with pool := some pid } e t
        let r := _connection_retry_loop rest f.1 w1
        (r.1, r.2.1, Effect.openPool pid :: Effect.probe pid :: (f.2 ++ r.2.2.1), r.2.2.2)
      | AttemptResult.ok =>
        let pid := w.nextPoolId
        let w1 : World := { nextPoolId := pid + 1, openPools := w.openPools ++ [pid] }
        let s1 : MState :=
          { s with pool := some pid, connected := true, monitorTask := true }
        (s1, w1, [Effect.openPool pid, Effect.probe pid, Effect.spawnMonitorTask], true)

/-- Outcome of the rebuild attempted by the monitor loop after a failed
probe: either `_create_pool` succeeded (`rebuildOk`) or it raised
(`rebuildFail`, carrying the abstracted message). -/
inductive RebuildResult where
  | rebuildOk
  | rebuildFail (e : Nat)
  deriving Repr, DecidableEq

/-- Outcome of one monitor cycle (sleep 30 seconds, then probe): the probe
succeeded, or it raised with a message and the subsequent rebuild had the
given result. -/
inductive MonitorEvent where
  | probeOk
  | probeFail (e : Nat) (r : RebuildResult)
  deriving Repr, DecidableEq

/-- Models `_monitor_connection` (postgres.py lines 166-188) run against a
script of cycle outcomes.  Loop condition: `while self._pool and
self._connected`.  Each cycle sleeps 30s and probes; on probe failure it
sets `_connected = False`, closes the current pool, and attempts
`_create_pool`: on success it assigns the new pool and sets `_connected =
True`; on failure it sleeps 10s (after which the loop condition is
re-evaluated).  The final `Bool` is `true` when the loop terminated on its
own (condition false) and `false` when the script ran out with the loop
still pending. -/
def _monitor_connection : List MonitorEvent → MState → World →
    MState × World × List Effect × Bool
  | [], s, w =>
    match s.pool with
    | none => (s, w, [], true)
    | some _ => if s.connected then (s, w, [], false) else (s, w, [], true)
  | ev :: rest, s, w =>
    match s.pool with
    | none => (s, w, [], true)
    | some p =>
      if s.connected then
        match ev with
        | MonitorEvent.probeOk =>
          let r := _monitor_connection rest s w
          (r.1, r.2.1, Effect.sleep 30 :: Effect.probe p :: r.2.2.1, r.2.2.2)
        | MonitorEvent.probeFail _e rb =>
          let sDown : MState := { s with connected := false }
          let wC : World := { w with openPools := w.openPools.erase p }
          match rb with
          | RebuildResult.rebuildOk =>
            let q := wC.nextPoolId
            let w2 : World := { nextPoolId := q + 1, openPools := wC.openPools ++ [q] }
            let s2 : MState := { sDown with pool := some q, connected := true }
            let r := _monitor_connection rest s2 w2
            (r.1, r.2.1,
             Effect.sleep 30 :: Effect.probe p :: Effect.closePool p ::
               Effect.openPool q :: r.2.2.1,
             r.2.2.2)
          | RebuildResult.rebuildFail _e2 =>
            (sDown, wC,
             [Effect.sleep 30, Effect.probe p, Effect.closePool p, Effect.sleep 10],
             true)
      else (s, w, [], true)

/-- Models `close` (postgres.py lines 201-224): cancel and await the
monitor task, then the connection task (cancellation of an absent task is
skipped); then, only if `self._pool` is set, close the pool and reset
`_pool`, `_connected` and `_initialized`. -/
def close (s : MState) (w : World) : MState × World × List Effect :=
  let cancelEffs :=
    (if s.monitorTask then [Effect.cancelMonitorTask] else []) ++
      (if s.connectionTask then [Effect.cancelConnectTask] else [])
  match s.pool with
  | some p =>
    ({ s with monitorTask := false, connectionTask := false,
              pool := none, connected := false, initialized := false },
     { w with openPools := w.openPools.erase p },
     cancelEffs ++ [Effect.closePool p])
  | none =>
    ({ s with monitorTask := false, connectionTask := false }, w, cancelEffs)

/-- Result of evaluating `_ensure_connected` (postgres.py lines 195-199)
in a state that no concurrently running task mutates: the initialization
check raises, or the state is connected and the method returns, or the
`while not self._connected: await asyncio.sleep(0.1)` poll never
terminates. -/
inductive WaitOutcome where
  | raisesNotInitialized
  | proceeds
  | blocked
  deriving Repr, DecidableEq

/-- Models `_ensure_connected` (postgres.py lines 195-199) under no
concurrent mutation of the state: `_ensure_initialized` raises
RuntimeError when `_initialized` is false; otherwise the polling loop
returns iff `_connected` is true and otherwise loops forever. -/
def _ensure_connected (s : MState) : WaitOutcome :=
  if s.initialized = false then WaitOutcome.raisesNotInitialized
  else if s.connected then WaitOutcome.proceeds
  else WaitOutcome.blocked

/-- Result of entering `get_connection` (postgres.py lines 235-253) in a
state that no concurrently running task mutates. -/
inductive AcquireOutcome where
  | raisesNotInitialized
  | blocked
  | raisesPoolUnavailable
  | borrows (p : Nat)
  deriving Repr, DecidableEq

/-- Models entry into `get_connection` (postgres.py lines 235-253):
`await self._ensure_connected()`, then raise if `self._pool` is absent,
otherwise borrow a connection from the current pool. -/
def get_connection (s : MState) : AcquireOutcome :=
  match _ensure_connected s with
  | WaitOutcome.raisesNotInitialized => AcquireOutcome.raisesNotInitialized
  | WaitOutcome.blocked => AcquireOutcome.blocked
  | WaitOutcome.proceeds =>
    match s.pool with
    | none => AcquireOutcome.raisesPoolUnavailable
    | some p => AcquireOutcome.borrows p

/-- Primitive events of one `get_session` execution (postgres.py lines
255-277).  `openSessionOnEngine` is `AsyncSession(self._engine)` entering
its context; the two possible `closeSession` events are the explicit
`await session.close()` in the `finally` block and the close performed by
the `AsyncSession` context manager on exit. -/
inductive SessionEvent where
  | openSessionOnEngine
  | runBlock
  | commit
  | rollback
  | closeSession
  deriving Repr, DecidableEq

/-- How a `get_session` use ends: the initialization check raised, the
scope completed normally, or the caller's block raised `e` and the
exception propagated. -/
inductive SessionOutcome where
  | raisesNotInitialized
  | normal
  | raises (e : Nat)
  deriving Repr, DecidableEq

/-- Models one full execution of `get_session` (postgres.py lines
255-277) where `blockError` says whether the caller's scoped block raised
(with abstracted message `e`) or completed normally:
`self._ensure_initialized()`, then inside `async with
AsyncSession(self._engine)`: yield the session; on normal completion
`await session.commit()`; on an exception `await session.rollback()` and
re-raise; in both cases the `finally` runs `await session.close()` and the
context manager closes the session again on exit. -/
def get_session (s : MState) (blockError : Option Nat) :
    List SessionEvent × SessionOutcome :=
  if s.initialized = false then ([], SessionOutcome.raisesNotInitialized)
  else
    match blockError with
    | none =>
      ([SessionEvent.openSessionOnEngine, SessionEvent.runBlock,
        SessionEvent.commit, SessionEvent.closeSession, SessionEvent.closeSession],
       SessionOutcome.normal)
    | some e =>
      ([SessionEvent.openSessionOnEngine, SessionEvent.runBlock,
        SessionEvent.rollback, SessionEvent.closeSession, SessionEvent.closeSession],
       SessionOutcome.raises e)

/-- Session-release accounting, following SQLAlchemy semantics in which
closing an already-closed session is a no-op: fold over the event trace
tracking whether a session is open and counting the closes that actually
release the underlying resources. -/
def releaseFold : List SessionEvent → Bool → Nat → Bool × Nat
  | [], o, n => (o, n)
  | SessionEvent.openSessionOnEngine :: rest, _, n => releaseFold rest true n
  | SessionEvent.closeSession :: rest, o, n =>
    releaseFold rest false (if o then n + 1 else n)
  | _ :: rest, o, n => releaseFold rest o n

/-- Number of effective releases of session resources in a trace. -/
def effectiveReleases (tr : List SessionEvent) : Nat :=
  (releaseFold tr false 0).2

/-- Number of occurrences of a session event in a trace. -/
def countSessionEvent (ev : SessionEvent) : List SessionEvent → Nat
  | [] => 0
  | e :: rest => (if e = ev then 1 else 0) + countSessionEvent ev rest

/-- Number of sleep effects of a given duration in an effect list. -/
def countSleep (n : Nat) : List Effect → Nat
  | [] => 0
  | Effect.sleep m :: rest => (if m = n then 1 else 0) + countSleep n rest
  | _ :: rest => countSleep n rest

/-- Values returned by `health_check` (postgres.py lines 295-307),
abstracting the returned dict: `lastError` is `none` when the dict has no
last-error entry.  The three possible status strings become an enum. -/
inductive HealthStatus where
  | statusNotInitialized
  | statusConnecting
  | statusHealthy
  deriving Repr, DecidableEq

/-- Abstraction of the dict returned by `health_check`. -/
structure HealthReport where
  connected : Bool
  status : HealthStatus
  lastError : Option Nat
  deriving Repr, DecidableEq

/-- Models `health_check` (postgres.py lines 295-307): a synchronous
method with no awaits and no I/O, computing its result from
`_initialized`, `_connected` and `_last_connection_error` alone. -/
def health_check (s : MState) : HealthReport :=
  if s.initialized = false then
    { connected := false, status := HealthStatus.statusNotInitialized, lastError := none }
  else if s.connected = false then
    { connected := false, status := HealthStatus.statusConnecting,
      lastError := s.lastConnectionError }
  else
    { connected := true, status := HealthStatus.statusHealthy, lastError := none }

/-- At most one pool handle is live, and any live pool is the one the
manager currently references. -/
def PoolInv (s : MState) (w : World) : Prop :=
  w.openPools = [] ∨ w.openPools = s.pool.toList

instance (s : MState) (w : World) : Decidable (PoolInv s w) :=
  inferInstanceAs (Decidable (w.openPools = [] ∨ w.openPools = s.pool.toList))

/-- Facade operations available to foreground callers while no background
task is running and `init_connection` is not called again: finishing the
client initialization, calling `close`, and the read-only entry points
(`health_check`, `get_session`, and the polling wait of
`_ensure_connected`), none of which mutate the connection state. -/
inductive FacadeOp where
  | finishInit
  | callClose
  | callHealthCheck
  | callGetSession
  | pollEnsureConnected
  deriving Repr, DecidableEq

/-- Effect of one facade operation on the manager state and world. -/
def facadeStep (s : MState) (w : World) : FacadeOp → MState × World
  | FacadeOp.finishInit =>
    match initializeClient s with
    | Except.ok s1 => (s1, w)
    | Except.error _ => (s, w)
  | FacadeOp.callClose => ((close s w).1, (close s w).2.1)
  | FacadeOp.callHealthCheck => (s, w)
  | FacadeOp.callGetSession => (s, w)
  | FacadeOp.pollEnsureConnected => (s, w)

/-- Iterated facade operations. -/
def facadeSteps (s : MState) (w : World) : List FacadeOp → MState × World
  | [] => (s, w)
  | op :: rest =>
    let r := facadeStep s w op
    facadeSteps r.1 r.2 rest

/-- N successive calls of `close`, accumulating effects. -/
def closeTimes : Nat → MState → World → MState × World × List Effect
  | 0, s, w => (s, w, [])
  | Nat.succ n, s, w =>
    let r := close s w
    let r2 := closeTimes n r.1 r.2.1
    (r2.1, r2.2.1, r.2.2 ++ r2.2.2)

/-- Applying `close` to the result of a `close` changes nothing and
performs no effects: the first call leaves no monitor task, no connection
task and no pool behind. -/
theorem close_fix (s : MState) (w : World) :
    close (close s w).1 (close s w).2.1 = ((close s w).1, (close s w).2.1, []) := by
  cases s with
  | mk hc ini con pool eng ct mt le lt => cases pool <;> simp [close]

/-- Iterating `close` from a fixed point of `close` changes nothing. -/
theorem closeTimes_fix (n : Nat) (s : MState) (w : World)
    (h : close s w = (s, w, [])) : closeTimes n s w = (s, w, []) := by
  induction n with
  | zero => rfl
  | succ k ih => simp [closeTimes, h, ih]

/-- C7: close() is idempotent: for every N greater than 0, calling close N
times yields the same terminal state, world and effect trace as calling it
once; in particular the 2nd..Nth calls mutate nothing, close no pool,
cancel no task, and (having no await to re-raise from) never raise. -/
theorem close_idempotent (s : MState) (w : World) (n : Nat) :
    closeTimes (n + 1) s w = closeTimes 1 s w := by
  have h2 := closeTimes_fix n (close s w).1 (close s w).2.1 (close_fix s w)
  simp [closeTimes, h2]

/-- C9: health_check is a pure, non-blocking snapshot: its result is
determined solely by the stored fields `_initialized`, `_connected` and
`_last_connection_error` (two states agreeing on those three fields get
identical reports, whatever their pools or tasks), and while initialized
but not connected it reports the connecting status together with the
stored last error. -/
theorem health_check_pure_snapshot (s t : MState)
    (h1 : s.initialized = t.initialized) (h2 : s.connected = t.connected)
    (h3 : s.lastConnectionError = t.lastConnectionError) :
    health_check s = health_check t ∧
    (s.initialized = true → s.connected = false →
      health_check s =
        { connected := false, status := HealthStatus.statusConnecting,
          lastError := s.lastConnectionError }) := by
  constructor
  · simp [health_check, h1, h2, h3]
  · intro hi hc
    simp [health_check, hi, hc]

/-- Witness for C9 at two concrete states that differ in pool and task
fields but agree on the three stored snapshot fields. -/
theorem health_check_pure_snapshot_witness :
    health_check { initialState with pool := some 5, monitorTask := true } =
      health_check initialState :=
  (health_check_pure_snapshot
    { initialState with pool := some 5, monitorTask := true }
    initialState rfl rfl rfl).1

/-- C6: for every initialized state and every outcome of the caller's
scoped block, get_session releases the session resources exactly once (two
close calls occur - the finally block and the context manager - but only
the first releases); a normally completing block commits exactly once and
never rolls back, and a raising block rolls back exactly once, never
commits, and the exception propagates. -/
theorem get_session_transaction_discipline (s : MState) (b : Option Nat)
    (h : s.initialized = true) :
    effectiveReleases (get_session s b).1 = 1 ∧
    countSessionEvent SessionEvent.closeSession (get_session s b).1 = 2 ∧
    (b = none →
      countSessionEvent SessionEvent.commit (get_session s b).1 = 1 ∧
      countSessionEvent SessionEvent.rollback (get_session s b).1 = 0 ∧
      (get_session s b).2 = SessionOutcome.normal) ∧
    (∀ e, b = some e →
      countSessionEvent SessionEvent.rollback (get_session s b).1 = 1 ∧
      countSessionEvent SessionEvent.commit (get_session s b).1 = 0 ∧
      (get_session s b).2 = SessionOutcome.raises e) := by
  cases b with
  | none => simp [get_session, h, effectiveReleases, releaseFold, countSessionEvent]
  | some e => simp [get_session, h, effectiveReleases, releaseFold, countSessionEvent]

/-- Witness for C6 on a concrete initialized state with a raising block. -/
theorem get_session_transaction_discipline_witness :
    effectiveReleases (get_session readyState (some 3)).1 = 1 :=
  (get_session_transaction_discipline readyState (some 3) rfl).1

/-- C5 counterexample: in the concrete state where the client is
initialized but not yet connected, get_connection (acquire) blocks, but
get_session does not block and completes normally - so get_session is not
acquire-plus-transaction: it never waits for the Connected state and does
not borrow from the manager's pool. -/
theorem get_session_ignores_connection_state :
    readyState.connected = false ∧
    (get_session readyState none).2 = SessionOutcome.normal ∧
    get_connection readyState = AcquireOutcome.blocked := by decide

/-- C5 amended: get_session requires only initialization: its behavior is
unchanged by the connection flag and by the pool field (it opens a session
on the SQLAlchemy engine, not on the psycopg pool, and never waits for
Connected); when the client is not initialized it raises, and when
initialized its first action is opening the engine session inside the
commit-on-success / rollback-on-error wrapper. -/
theorem get_session_requires_only_initialization (s : MState) (b : Option Nat)
    (c : Bool) (po : Option Nat) :
    get_session { s with connected := c, pool := po } b = get_session s b ∧
    (s.initialized = false →
      (get_session s b).2 = SessionOutcome.raisesNotInitialized) ∧
    (s.initialized = true →
      (get_session s b).1.head? = some SessionEvent.openSessionOnEngine) := by
  refine ⟨?_, ?_, ?_⟩
  · simp [get_session]
  · intro h
    simp [get_session, h]
  · intro h
    cases b <;> simp [get_session, h]

/-- Witness for C5 amended at a concrete uninitialized state. -/
theorem get_session_requires_only_initialization_witness :
    (get_session initialState none).2 = SessionOutcome.raisesNotInitialized :=
  (get_session_requires_only_initialization initialState none true (some 0)).2.1 rfl

/-- C2 counterexample: close() invoked on a client that is initialized but
never reached Connected (no pool was ever created) does not reset
`_initialized`; afterwards `_ensure_connected` neither raises nor returns
- a subsequent get_connection blocks forever instead of failing with a
manager-closed error, refuting the claim for managers that never reached
Connected. -/
theorem close_before_connect_leaves_acquire_blocked :
    (close readyState ⟨0, []⟩).1.initialized = true ∧
    _ensure_connected (close readyState ⟨0, []⟩).1 = WaitOutcome.blocked ∧
    get_connection (close readyState ⟨0, []⟩).1 = AcquireOutcome.blocked := by decide

/-- C2 amended: after close() completes, the outcome of acquire and
scopedSession depends on whether a pool existed when close ran: if it did,
`_initialized` is reset, so get_connection and get_session raise the
not-initialized RuntimeError (the manager-closed condition) rather than
hanging; if no pool had ever been created, close leaves `_initialized` and
`_connected` unchanged, so on an initialized, never-connected manager a
subsequent get_connection blocks forever while get_session proceeds
without error. -/
theorem post_close_acquire_behavior (s : MState) (w : World) (b : Option Nat) :
    (∀ p, s.pool = some p →
      (close s w).1.initialized = false ∧
      _ensure_connected (close s w).1 = WaitOutcome.raisesNotInitialized ∧
      get_connection (close s w).1 = AcquireOutcome.raisesNotInitialized ∧
      (get_session (close s w).1 b).2 = SessionOutcome.raisesNotInitialized) ∧
    (s.pool = none →
      (close s w).1.initialized = s.initialized ∧
      (close s w).1.connected = s.connected ∧
      (s.initialized = true → s.connected = false →
        _ensure_connected (close s w).1 = WaitOutcome.blocked ∧
        get_connection (close s w).1 = AcquireOutcome.blocked ∧
        (get_session (close s w).1 b).2 ≠ SessionOutcome.raisesNotInitialized)) := by
  constructor
  · intro p hp
    simp [close, hp, _ensure_connected, get_connection, get_session]
  · intro hp
    refine ⟨by simp [close, hp], by simp [close, hp], ?_⟩
    intro hi hc
    refine ⟨by simp [close, hp, _ensure_connected, hi, hc], ?_, ?_⟩
    · simp [close, hp, get_connection, _ensure_connected, hi, hc]
    · cases b <;> simp [close, hp, get_session, hi]

/-- Witness for C2 amended: closing a connected manager with a pool makes
a later acquire raise instead of blocking. -/
theorem post_close_acquire_behavior_witness :
    _ensure_connected (close (connectedState 0) ⟨1, [0]⟩).1 =
      WaitOutcome.raisesNotInitialized :=
  ((post_close_acquire_behavior (connectedState 0) ⟨1, [0]⟩ none).1 0 rfl).2.1

/-- C1 counterexample: a concrete connected manager whose next health
probe fails and whose immediate rebuild also fails: the monitor loop
sleeps 10 seconds and then terminates on its own (final flag true) with
the manager left disconnected, even though a further cycle was scheduled
in the script and close() was never called - refuting both the
retry-until-success and the never-exits-except-cancellation parts of the
claim. -/
theorem monitor_loop_self_exit_example :
    _monitor_connection
        [MonitorEvent.probeFail 5 (RebuildResult.rebuildFail 6), MonitorEvent.probeOk]
        (connectedState 0) ⟨1, [0]⟩ =
      ({ connectedState 0 with connected := false }, ⟨1, []⟩,
       [Effect.sleep 30, Effect.probe 0, Effect.closePool 0, Effect.sleep 10],
       true) := by decide

/-- C1 amended: when a health probe fails, the monitor attempts exactly
one immediate rebuild; if that rebuild fails it sleeps 10 seconds and then
the `while self._pool and self._connected` condition is false (connected
was cleared), so the loop exits on its own without any cancellation,
ignoring any remaining cycles and never retrying the rebuild. -/
theorem monitor_rebuild_failure_exits (s : MState) (w : World) (p e e2 : Nat)
    (rest : List MonitorEvent) (hp : s.pool = some p) (hc : s.connected = true) :
    _monitor_connection
        (MonitorEvent.probeFail e (RebuildResult.rebuildFail e2) :: rest) s w =
      ({ s with connected := false },
       { w with openPools := w.openPools.erase p },
       [Effect.sleep 30, Effect.probe p, Effect.closePool p, Effect.sleep 10],
       true) := by
  rw [_monitor_connection]
  simp [hp, hc]

/-- Witness for C1 amended at a concrete connected state. -/
theorem monitor_rebuild_failure_exits_witness :
    _monitor_connection
        [MonitorEvent.probeFail 8 (RebuildResult.rebuildFail 9)]
        (connectedState 2) ⟨3, [2]⟩ =
      ({ connectedState 2 with connected := false },
       { nextPoolId := 3, openPools := ([2] : List Nat).erase 2 },
       [Effect.sleep 30, Effect.probe 2, Effect.closePool 2, Effect.sleep 10],
       true) :=
  monitor_rebuild_failure_exits (connectedState 2) ⟨3, [2]⟩ 2 8 9 [] rfl rfl

/-- The health monitor preserves the single-live-pool invariant: a
rebuild closes the current pool before opening and installing its
replacement, and a failed rebuild leaves no pool open at all. -/
theorem monitor_preserves_poolInv (evs : List MonitorEvent) :
    ∀ s w, PoolInv s w →
      PoolInv (_monitor_connection evs s w).1 (_monitor_connection evs s w).2.1 := by
  induction evs with
  | nil =>
    intro s w h
    cases hp : s.pool with
    | none => simpa [_monitor_connection, hp] using h
    | some p =>
      by_cases hc : s.connected = true
      · simpa [_monitor_connection, hp, hc] using h
      · simpa [_monitor_connection, hp, hc] using h
  | cons ev rest ih =>
    intro s w h
    cases hp : s.pool with
    | none => simpa [_monitor_connection, hp] using h
    | some p =>
      by_cases hc : s.connected = true
      · cases ev with
        | probeOk =>
          simpa [_monitor_connection, hp, hc] using ih s w h
        | probeFail e rb =>
          cases rb with
          | rebuildOk =>
            simp only [_monitor_connection, hp, hc, if_true]
            apply ih
            simp only [PoolInv, hp, Option.toList] at h ⊢
            rcases h with h1 | h1 <;> simp [h1, List.erase_cons_head]
          | rebuildFail e2 =>
            simp only [_monitor_connection, hp, hc, if_true]
            simp only [PoolInv, hp, Option.toList] at h ⊢
            rcases h with h1 | h1 <;> simp [h1, List.erase_cons_head]
      · simpa [_monitor_connection, hp, hc] using h

/-- close preserves the single-live-pool invariant: it closes the current
pool (if any) before dropping the reference. -/
theorem close_preserves_poolInv (s : MState) (w : World) (h : PoolInv s w) :
    PoolInv (close s w).1 (close s w).2.1 := by
  cases hp : s.pool with
  | none =>
    simp only [close, hp]
    simp only [PoolInv, hp, Option.toList] at h ⊢
    exact h
  | some p =>
    simp only [close, hp]
    simp only [PoolInv, hp, Option.toList] at h ⊢
    rcases h with h1 | h1 <;> simp [h1, List.erase_cons_head]

/-- C3 counterexample: starting from a fresh initialized manager, a
connect attempt whose pool opens but whose probe fails, followed by a
successful attempt, leaves two pools open at once (ids 0 and 1) with the
manager referencing only pool 1 - pool 0 is never closed, violating the
at-most-one-live-pool invariant. -/
theorem connect_retry_leaks_open_pool :
    (_connection_retry_loop [AttemptResult.probeFail 4 0, AttemptResult.ok]
        readyState ⟨0, []⟩).2.1.openPools = [0, 1] ∧
    (_connection_retry_loop [AttemptResult.probeFail 4 0, AttemptResult.ok]
        readyState ⟨0, []⟩).1.pool = some 1 ∧
    ¬ PoolInv
        (_connection_retry_loop [AttemptResult.probeFail 4 0, AttemptResult.ok]
          readyState ⟨0, []⟩).1
        (_connection_retry_loop [AttemptResult.probeFail 4 0, AttemptResult.ok]
          readyState ⟨0, []⟩).2.1 := by decide

/-- C3 amended: the monitor's rebuild and close always close the previous
pool before (or instead of) installing a new one, so both preserve the
at-most-one-live-pool invariant; the connect retry loop, however,
overwrites the pool reference without closing the previous pool, so an
attempt whose pool opened but whose probe failed leaves an extra live
pool behind. -/
theorem single_live_pool_preservation (s : MState) (w : World) (evs : List MonitorEvent)
    (h : PoolInv s w) :
    PoolInv (_monitor_connection evs s w).1 (_monitor_connection evs s w).2.1 ∧
    PoolInv (close s w).1 (close s w).2.1 ∧
    ((_connection_retry_loop [AttemptResult.probeFail 4 0, AttemptResult.ok]
        readyState ⟨0, []⟩).2.1.openPools.length = 2) :=
  ⟨monitor_preserves_poolInv evs s w h, close_preserves_poolInv s w h, by decide⟩

/-- Witness for C3 amended at a concrete connected state with one live
pool, running one full failure-and-recovery monitor cycle. -/
theorem single_live_pool_preservation_witness :
    PoolInv
      (_monitor_connection [MonitorEvent.probeFail 4 RebuildResult.rebuildOk]
        (connectedState 0) ⟨1, [0]⟩).1
      (_monitor_connection [MonitorEvent.probeFail 4 RebuildResult.rebuildOk]
        (connectedState 0) ⟨1, [0]⟩).2.1 :=
  (single_live_pool_preservation (connectedState 0) ⟨1, [0]⟩
    [MonitorEvent.probeFail 4 RebuildResult.rebuildOk] (Or.inr rfl)).1

/-- connectFailure always records the error it is given. -/
theorem connectFailure_error (s : MState) (e t : Nat) :
    (connectFailure s e t).1.lastConnectionError = some e := by
  by_cases h : 10 ≤ t - s.lastErrorLogTime <;> simp [connectFailure, h]

/-- connectFailure does not change the connected flag. -/
theorem connectFailure_connected (s : MState) (e t : Nat) :
    (connectFailure s e t).1.connected = s.connected := by
  by_cases h : 10 ≤ t - s.lastErrorLogTime <;> simp [connectFailure, h]

/-- connectFailure emits exactly one sleep, of one second. -/
theorem connectFailure_sleeps (s : MState) (e t n : Nat) :
    countSleep n (connectFailure s e t).2 = if 1 = n then 1 else 0 := by
  by_cases h : 10 ≤ t - s.lastErrorLogTime <;> simp [connectFailure, h, countSleep]

/-- The connect retry loop never clears the stored last connection error:
if no error is stored after a run, none was stored before it. -/
theorem connect_loop_preserves_error_presence (script : List AttemptResult) :
    ∀ s w, (_connection_retry_loop script s w).1.lastConnectionError = none →
      s.lastConnectionError = none := by
  induction script with
  | nil =>
    intro s w h
    by_cases hc : s.connected = true <;> simpa [_connection_retry_loop, hc] using h
  | cons a rest ih =>
    intro s w h
    by_cases hc : s.connected = true
    · simpa [_connection_retry_loop, hc] using h
    · cases a with
      | openFail e t =>
        simp only [_connection_retry_loop, hc, if_false] at h
        have h2 := ih _ _ h
        simp [connectFailure_error] at h2
      | probeFail e t =>
        simp only [_connection_retry_loop, hc, if_false] at h
        have h2 := ih _ _ h
        simp [connectFailure_error] at h2
      | ok =>
        simpa [_connection_retry_loop, hc] using h

/-- The monitor loop never writes the stored last connection error. -/
theorem monitor_preserves_lastError (evs : List MonitorEvent) :
    ∀ s w, (_monitor_connection evs s w).1.lastConnectionError =
      s.lastConnectionError := by
  induction evs with
  | nil =>
    intro s w
    cases hp : s.pool with
    | none => simp [_monitor_connection, hp]
    | some p => by_cases hc : s.connected = true <;> simp [_monitor_connection, hp, hc]
  | cons ev rest ih =>
    intro s w
    cases hp : s.pool with
    | none => simp [_monitor_connection, hp]
    | some p =>
      by_cases hc : s.connected = true
      · cases ev with
        | probeOk => simpa [_monitor_connection, hp, hc] using ih s w
        | probeFail e rb =>
          cases rb with
          | rebuildOk =>
            simp only [_monitor_connection, hp, hc, if_true]
            simpa using ih _ _
          | rebuildFail e2 => simp [_monitor_connection, hp, hc]
      · simp [_monitor_connection, hp, hc]

/-- C4 counterexample: one failed connect attempt followed by a
successful attempt leaves the manager Connected while still storing the
old failure in `_last_connection_error` - the error is not cleared by the
successful probe, refuting the claim that LastError is present only while
Connecting or Degraded. -/
theorem last_error_persists_after_reconnect :
    (_connection_retry_loop [AttemptResult.openFail 7 0, AttemptResult.ok]
        readyState ⟨0, []⟩).1.connected = true ∧
    (_connection_retry_loop [AttemptResult.openFail 7 0, AttemptResult.ok]
        readyState ⟨0, []⟩).1.lastConnectionError = some 7 := by decide

/-- C4 amended: the stored last connection error is never cleared - the
connect retry loop only overwrites it with newer failures, the monitor
loop and close never write it - but while Connected it is not reported:
health_check omits the last-error entry whenever `_connected` is true. -/
theorem last_error_never_cleared_but_unreported (script : List AttemptResult)
    (evs : List MonitorEvent) (s : MState) (w : World) :
    ((_connection_retry_loop script s w).1.lastConnectionError = none →
      s.lastConnectionError = none) ∧
    (_monitor_connection evs s w).1.lastConnectionError = s.lastConnectionError ∧
    (close s w).1.lastConnectionError = s.lastConnectionError ∧
    (s.connected = true → (health_check s).lastError = none) := by
  refine ⟨connect_loop_preserves_error_presence script s w,
    monitor_preserves_lastError evs s w, ?_, ?_⟩
  · cases hp : s.pool <;> simp [close, hp]
  · intro hc
    cases hi : s.initialized <;> simp [health_check, hi, hc]

/-- Witness for C4 amended: a connected manager reports no last error. -/
theorem last_error_never_cleared_but_unreported_witness :
    (health_check (connectedState 0)).lastError = none :=
  (last_error_never_cleared_but_unreported [] [] (connectedState 0) ⟨1, [0]⟩).2.2.2 rfl

/-- countSleep distributes over list append. -/
theorem countSleep_append (n : Nat) (l1 l2 : List Effect) :
    countSleep n (l1 ++ l2) = countSleep n l1 + countSleep n l2 := by
  induction l1 with
  | nil => simp [countSleep]
  | cons e t ih => cases e <;> simp [countSleep, ih, Nat.add_assoc]

/-- C8: the connect retry loop, started disconnected, retries after every
failed connect-and-probe attempt with exactly one 1-second sleep per
failure (and no other sleep durations), with no retry ceiling: after any
number of failures it is still retrying, not Connected; on the first
successful attempt (pool opens, probe round-trip succeeds) it sets the
connected flag, spawns the health monitor task, and terminates. -/
theorem connection_retry_loop_spec (fs : List AttemptResult) :
    ∀ s w, s.connected = false → (∀ a ∈ fs, a.isFailure = true) →
      ((_connection_retry_loop (fs ++ [AttemptResult.ok]) s w).2.2.2 = true ∧
       (_connection_retry_loop (fs ++ [AttemptResult.ok]) s w).1.connected = true ∧
       (_connection_retry_loop (fs ++ [AttemptResult.ok]) s w).1.monitorTask = true ∧
       Effect.spawnMonitorTask ∈ (_connection_retry_loop (fs ++ [AttemptResult.ok]) s w).2.2.1 ∧
       countSleep 1 (_connection_retry_loop (fs ++ [AttemptResult.ok]) s w).2.2.1 = fs.length ∧
       countSleep 10 (_connection_retry_loop (fs ++ [AttemptResult.ok]) s w).2.2.1 = 0 ∧
       countSleep 30 (_connection_retry_loop (fs ++ [AttemptResult.ok]) s w).2.2.1 = 0) ∧
      ((_connection_retry_loop fs s w).2.2.2 = false ∧
       (_connection_retry_loop fs s w).1.connected = false) := by
  induction fs with
  | nil =>
    intro s w hc _
    refine ⟨?_, ?_⟩
    · simp [_connection_retry_loop, hc, countSleep]
    · simp [_connection_retry_loop, hc]
  | cons a rest ih =>
    intro s w hc hfs
    have ha := hfs a (List.mem_cons_self a rest)
    have hrest : ∀ b ∈ rest, b.isFailure = true :=
      fun b hb => hfs b (List.mem_cons_of_mem a hb)
    cases a with
    | openFail e t =>
      have hc2 : (connectFailure s e t).1.connected = false := by
        rw [connectFailure_connected]; exact hc
      have ihr := ih (connectFailure s e t).1 w hc2 hrest
      obtain ⟨⟨hfin, hconn, hmon, hmem, hs1, hs10, hs30⟩, hfin2, hconn2⟩ := ihr
      constructor
      · rw [List.cons_append]
        simp [_connection_retry_loop, hc, countSleep_append, connectFailure_sleeps,
          hfin, hconn, hmon, hmem, hs1, hs10, hs30]
        omega
      · simp [_connection_retry_loop, hc, hfin2, hconn2]
    | probeFail e t =>
      have hc2 : (connectFailure { s with pool := some w.nextPoolId } e t).1.connected
          = false := by
        rw [connectFailure_connected]; exact hc
      have ihr := ih (connectFailure { s with pool := some w.nextPoolId } e t).1
        { nextPoolId := w.nextPoolId + 1, openPools := w.openPools ++ [w.nextPoolId] }
        hc2 hrest
      obtain ⟨⟨hfin, hconn, hmon, hmem, hs1, hs10, hs30⟩, hfin2, hconn2⟩ := ihr
      simp only [hc] at hfin hconn hmon hmem hs1 hs10 hs30 hfin2 hconn2
      constructor
      · rw [List.cons_append]
        simp [_connection_retry_loop, hc, countSleep, countSleep_append,
          connectFailure_sleeps, hfin, hconn, hmon, hmem, hs1, hs10, hs30]
        omega
      · simp [_connection_retry_loop, hc, countSleep, hfin2, hconn2]
    | ok => simp [AttemptResult.isFailure] at ha

/-- Witness for C8 with one failed attempt then a successful one. -/
theorem connection_retry_loop_spec_witness :
    countSleep 1
      (_connection_retry_loop [AttemptResult.openFail 5 20, AttemptResult.ok]
        readyState ⟨0, []⟩).2.2.1 = 1 :=
  (connection_retry_loop_spec [AttemptResult.openFail 5 20] readyState ⟨0, []⟩
    rfl (by decide)).1.2.2.2.2.1

/-- No facade operation (finishing initialization, close, health_check,
get_session, or the polling wait) ever sets the connected flag: only the
two background loops do, and they run only as spawned tasks. -/
theorem facadeSteps_connected_false (ops : List FacadeOp) :
    ∀ s w, s.connected = false → (facadeSteps s w ops).1.connected = false := by
  induction ops with
  | nil => intro s w h; exact h
  | cons op rest ih =>
    intro s w h
    have hstep : (facadeStep s w op).1.connected = false := by
      cases op with
      | finishInit =>
        cases hcfg : s.hasConfig <;> simp [facadeStep, initializeClient, hcfg, h]
      | callClose => cases hp : s.pool <;> simp [facadeStep, close, hp, h]
      | callHealthCheck => exact h
      | callGetSession => exact h
      | pollEnsureConnected => exact h
    simpa [facadeSteps] using ih _ _ hstep

/-- C10: calling init_connection before initialization has completed
returns silently, changes nothing and spawns no task (so the connect
retry loop never runs); consequently, under any subsequent sequence of
facade operations (initialization completing, close, health snapshots,
sessions, polling - but no second init_connection call), the manager
never becomes connected, and once initialization has completed a caller
entering get_connection blocks indefinitely in the `_ensure_connected`
poll. -/
theorem early_init_connection_noop_blocks_acquire (s : MState) (w : World)
    (ops : List FacadeOp) (hi : s.initialized = false) (hc : s.connected = false) :
    init_connection s = (s, []) ∧
    (facadeSteps s w ops).1.connected = false ∧
    ((facadeSteps s w ops).1.initialized = true →
      _ensure_connected (facadeSteps s w ops).1 = WaitOutcome.blocked ∧
      get_connection (facadeSteps s w ops).1 = AcquireOutcome.blocked) := by
  refine ⟨by simp [init_connection, hi], facadeSteps_connected_false ops s w hc, ?_⟩
  intro hini
  have hcon := facadeSteps_connected_false ops s w hc
  constructor
  · simp [_ensure_connected, hini, hcon]
  · simp [get_connection, _ensure_connected, hini, hcon]

/-- Witness for C10: a fresh client whose start was called too early,
after which initialization completes - acquire then blocks. -/
theorem early_init_connection_noop_blocks_acquire_witness :
    _ensure_connected (facadeSteps initialState ⟨0, []⟩ [FacadeOp.finishInit]).1 =
      WaitOutcome.blocked :=
  ((early_init_connection_noop_blocks_acquire initialState ⟨0, []⟩
      [FacadeOp.finishInit] rfl rfl).2.2 (by decide)).1

end PostgresModel
